import Mathlib

/-!
Verification of the case-consolidation core of the nasure prototype.

The development shallowly embeds the Python sources:

* `src/case/classifier.py` — the pandas prototype: `upsert_case_and_link_id`
  (window matching, case creation, link insertion) and `collect_case_evidence`
  (evidence gathering and classification).  DataFrames become lists of records,
  `NaN`/`NaT` cells become `Option.none`, and `pd.Timestamp` dates become `Int`
  day numbers (the code compares whole days of date differences, and the
  upstream dates are calendar dates).  The random `uuid.uuid4()` of
  `new_case_id()` is passed in as an explicit `freshId` argument.
* `src/case/service_layer/handlers.py` — the DB-backed variant:
  `create_new_case_internal`.
* `src/lab_dp/fhir/minimal_transformer.py` — `_parse_timestamp`, together with
  a model of Python's `datetime.fromisoformat` on the dashed ISO-8601 forms the
  repository feeds it (`YYYY-MM-DD`, optionally `T`/` ` plus `HH:MM[:SS[.f…]]`
  and a `±HH:MM` or `Z` offset); an unparseable string is `none`, which models
  the `ValueError` the try/except in `_parse_timestamp` swallows.
-/

namespace Nasure

/-! ### Data model of `classifier.py`

`IncomingElement` is the dataclass at the top of the file.  `CaseRow` is one
row of the `falldatenprodukt` DataFrame: the four columns every row has, plus
the five derived columns that `collect_case_evidence` creates on demand (a cell
of a column a row never received holds `NaN`, i.e. `none` here — in particular
a freshly inserted case has all five at `none`).  `LinkRow` is one row of
`fall_meldung_tabelle`, `LabRow`/`KlinikRow` one row of the lab/clinical data
products. -/

structure IncomingElement where
  Patient_ID : String
  Pathogen_code : String
  Date : Int
  ID : String
  deriving DecidableEq

structure CaseRow where
  case_ID : String
  Patient_ID : String
  Pathogen_code : String
  Date : Int
  lb_date : Option Int := none
  lb_interpretation : Option String := none
  kb_date : Option Int := none
  kb_manifestation : Option String := none
  case_class : Option String := none
  deriving DecidableEq

structure LinkRow where
  ID : String
  case_ID : String
  deriving DecidableEq

structure LabRow where
  ID : String
  date : Int
  interpretation : Option String
  deriving DecidableEq

structure KlinikRow where
  ID : String
  date : Int
  manifestation : Option String
  deriving DecidableEq

/-- The absolute day difference
`(same_patient_pathogen["Date"] - incoming.Date).abs().dt.days` of
`upsert_case_and_link_id`: with whole-day dates this is the absolute value of
the difference. -/
def absDayDiff (a b : Int) : Int :=
  ((a - b).natAbs : Int)

/-- `Series.idxmin` / Python's `min(..., key=...)` on a list: the first element
attaining the minimal key, `none` on the empty list.  (pandas `idxmin` returns
the first index attaining the minimum; `handlers.py` uses `min` with a key,
which likewise keeps the earliest minimal element.) -/
def firstMinBy {α : Type} (f : α → Int) : List α → Option α
  | [] => none
  | a :: l =>
    match firstMinBy f l with
    | none => some a
    | some m => if f m < f a then some m else some a

theorem firstMinBy_eq_none_iff {α : Type} (f : α → Int) (l : List α) :
    firstMinBy f l = none ↔ l = [] := by
  cases l with
  | nil => simp [firstMinBy]
  | cons a l =>
    simp only [firstMinBy]
    cases h : firstMinBy f l with
    | none => simp
    | some m =>
      constructor
      · intro hcontra
        by_cases hlt : f m < f a <;> simp [hlt] at hcontra
      · intro hcontra
        exact absurd hcontra (List.cons_ne_nil a l)

theorem firstMinBy_mem {α : Type} {f : α → Int} {l : List α} {m : α}
    (h : firstMinBy f l = some m) : m ∈ l := by
  induction l generalizing m with
  | nil => simp [firstMinBy] at h
  | cons a l ih =>
    simp only [firstMinBy] at h
    cases h2 : firstMinBy f l with
    | none =>
      rw [h2] at h
      simp at h
      simp [h]
    | some m0 =>
      rw [h2] at h
      by_cases hlt : f m0 < f a
      · simp [hlt] at h
        subst h
        exact List.mem_cons_of_mem a (ih h2)
      · simp [hlt] at h
        simp [h]

theorem firstMinBy_min {α : Type} {f : α → Int} {l : List α} {m : α}
    (h : firstMinBy f l = some m) : ∀ x ∈ l, f m ≤ f x := by
  induction l generalizing m with
  | nil => simp [firstMinBy] at h
  | cons a l ih =>
    simp only [firstMinBy] at h
    cases h2 : firstMinBy f l with
    | none =>
      rw [h2] at h
      simp at h
      subst h
      intro x hx
      rcases List.mem_cons.mp hx with rfl | hx2
      · exact le_refl _
      · exact absurd ((firstMinBy_eq_none_iff f l).mp h2 ▸ hx2) (List.not_mem_nil x)
    | some m0 =>
      rw [h2] at h
      by_cases hlt : f m0 < f a
      · simp [hlt] at h
        subst h
        intro x hx
        rcases List.mem_cons.mp hx with rfl | hx2
        · exact le_of_lt hlt
        · exact ih h2 x hx2
      · simp [hlt] at h
        subst h
        intro x hx
        rcases List.mem_cons.mp hx with rfl | hx2
        · exact le_refl _
        · exact le_trans (le_of_not_lt hlt) (ih h2 x hx2)

/-- The element `firstMinBy` returns is the first one attaining the minimum:
everything before it in the list has a strictly larger key. -/
theorem firstMinBy_first {α : Type} {f : α → Int} {l : List α} {m : α}
    (h : firstMinBy f l = some m) :
    ∃ l1 l2, l = l1 ++ m :: l2 ∧ ∀ x ∈ l1, f m < f x := by
  induction l generalizing m with
  | nil => simp [firstMinBy] at h
  | cons a l ih =>
    simp only [firstMinBy] at h
    cases h2 : firstMinBy f l with
    | none =>
      rw [h2] at h
      simp at h
      subst h
      exact ⟨[], l, rfl, by simp⟩
    | some m0 =>
      rw [h2] at h
      by_cases hlt : f m0 < f a
      · simp [hlt] at h
        subst h
        obtain ⟨l1, l2, hsplit, hgt⟩ := ih h2
        refine ⟨a :: l1, l2, by simp [hsplit], ?_⟩
        intro x hx
        rcases List.mem_cons.mp hx with rfl | hx2
        · exact hlt
        · exact hgt x hx2
      · simp [hlt] at h
        subst h
        exact ⟨[], l, rfl, by simp⟩

/-! ### `upsert_case_and_link_id` (`classifier.py`, lines 39–121)

The filter on patient and pathogen and the window filter are the two
`same_patient_pathogen` / `within_window` DataFrame filters of the source;
they preserve row order, as pandas boolean indexing does.  The source guards
the window logic with `if not same_patient_pathogen.empty` and then branches
on `if not within_window.empty`, taking `idxmin` in the non-empty branch; the
`idxmin` call is total exactly on non-empty frames, so the `none` arm of the
`match` below is the source's `else` (new case) branch.  Both `else` branches
of the source append the same literal row, whose derived columns are absent,
i.e. `NaN` — the structure defaults. -/

def samePatientPathogen (incoming : IncomingElement) (falldatenprodukt : List CaseRow) :
    List CaseRow :=
  falldatenprodukt.filter fun r =>
    r.Patient_ID == incoming.Patient_ID && r.Pathogen_code == incoming.Pathogen_code

def withinWindow (incoming : IncomingElement) (case_duration_days : Int)
    (falldatenprodukt : List CaseRow) : List CaseRow :=
  (samePatientPathogen incoming falldatenprodukt).filter fun r =>
    absDayDiff r.Date incoming.Date ≤ case_duration_days

/-- The new `falldatenprodukt` row both creation branches of the source build:
`case_ID` is the fresh `new_case_id()`, the other columns are copied from the
incoming element, every derived column is left `NaN`. -/
def newCaseRow (incoming : IncomingElement) (freshId : String) : CaseRow :=
  { case_ID := freshId
    Patient_ID := incoming.Patient_ID
    Pathogen_code := incoming.Pathogen_code
    Date := incoming.Date }

/-- Lines 109–121 of `classifier.py`: append `(ID, case_ID)` to
`fall_meldung_tabelle` only when the pair is not already present. -/
def addLinkIfAbsent (id case_id : String) (fall_meldung_tabelle : List LinkRow) :
    List LinkRow :=
  if fall_meldung_tabelle.any fun l => l.ID == id && l.case_ID == case_id then
    fall_meldung_tabelle
  else
    fall_meldung_tabelle ++ [{ ID := id, case_ID := case_id }]

structure UpsertResult where
  case_id : String
  falldatenprodukt : List CaseRow
  fall_meldung_tabelle : List LinkRow
  deriving DecidableEq

def upsert_case_and_link_id (incoming : IncomingElement)
    (falldatenprodukt : List CaseRow) (fall_meldung_tabelle : List LinkRow)
    (freshId : String) (case_duration_days : Int := 28) : UpsertResult :=
  let same_patient_pathogen := samePatientPathogen incoming falldatenprodukt
  let found : String × List CaseRow :=
    if !same_patient_pathogen.isEmpty then
      let within_window := withinWindow incoming case_duration_days falldatenprodukt
      match firstMinBy (fun r => absDayDiff r.Date incoming.Date) within_window with
      | some hit => (hit.case_ID, falldatenprodukt)
      | none => (freshId, falldatenprodukt ++ [newCaseRow incoming freshId])
    else
      (freshId, falldatenprodukt ++ [newCaseRow incoming freshId])
  { case_id := found.1
    falldatenprodukt := found.2
    fall_meldung_tabelle := addLinkIfAbsent incoming.ID found.1 fall_meldung_tabelle }

/-- Branch analysis of `upsert_case_and_link_id`: the link table always gets
the idempotent insertion of `(incoming.ID, case_id)`, and either a case inside
the window was hit (first minimal-difference row, case table untouched) or no
case was inside the window and the seeded row was appended. -/
theorem upsert_spec (incoming : IncomingElement) (fdp : List CaseRow)
    (fmt : List LinkRow) (freshId : String) (w : Int) :
    (upsert_case_and_link_id incoming fdp fmt freshId w).fall_meldung_tabelle =
      addLinkIfAbsent incoming.ID
        (upsert_case_and_link_id incoming fdp fmt freshId w).case_id fmt ∧
    ((∃ hit,
        firstMinBy (fun r => absDayDiff r.Date incoming.Date)
          (withinWindow incoming w fdp) = some hit ∧
        (upsert_case_and_link_id incoming fdp fmt freshId w).case_id = hit.case_ID ∧
        (upsert_case_and_link_id incoming fdp fmt freshId w).falldatenprodukt = fdp) ∨
      (withinWindow incoming w fdp = [] ∧
        (upsert_case_and_link_id incoming fdp fmt freshId w).case_id = freshId ∧
        (upsert_case_and_link_id incoming fdp fmt freshId w).falldatenprodukt =
          fdp ++ [newCaseRow incoming freshId])) := by
  by_cases hempty : (samePatientPathogen incoming fdp).isEmpty
  · have hnil : samePatientPathogen incoming fdp = [] := by
      simpa using hempty
    have hwin : withinWindow incoming w fdp = [] := by
      simp [withinWindow, hnil]
    constructor
    · simp [upsert_case_and_link_id, hempty]
    · exact Or.inr ⟨hwin, by simp [upsert_case_and_link_id, hempty],
        by simp [upsert_case_and_link_id, hempty]⟩
  · cases hmin : firstMinBy (fun r => absDayDiff r.Date incoming.Date)
      (withinWindow incoming w fdp) with
    | none =>
      have hwin : withinWindow incoming w fdp = [] :=
        (firstMinBy_eq_none_iff _ _).mp hmin
      constructor
      · simp [upsert_case_and_link_id, hempty, hmin]
      · exact Or.inr ⟨hwin, by simp [upsert_case_and_link_id, hempty, hmin],
          by simp [upsert_case_and_link_id, hempty, hmin]⟩
    | some hit =>
      constructor
      · simp [upsert_case_and_link_id, hempty, hmin]
      · exact Or.inl ⟨hit, rfl, by simp [upsert_case_and_link_id, hempty, hmin],
          by simp [upsert_case_and_link_id, hempty, hmin]⟩

/-- A row of the within-window candidate set, characterised. -/
theorem mem_withinWindow_iff (incoming : IncomingElement) (w : Int)
    (fdp : List CaseRow) (r : CaseRow) :
    r ∈ withinWindow incoming w fdp ↔
      r ∈ fdp ∧ r.Patient_ID = incoming.Patient_ID ∧
        r.Pathogen_code = incoming.Pathogen_code ∧
        absDayDiff r.Date incoming.Date ≤ w := by
  simp only [withinWindow, samePatientPathogen, List.mem_filter, Bool.and_eq_true,
    beq_iff_eq, decide_eq_true_eq]
  tauto

/-! ### The DB-backed variant (`service_layer/handlers.py`, `domain/domain.py`)

`CaseRecord` is the dataclass of `case/domain/domain.py` (all columns are
strings there, `case_date` an ISO date string).  `CreateCaseFromDataProduct`
is the command of `case/domain/commands.py`; its two `datetime` fields are
opaque here (the embedded code never reads them).  The `product` dict fetched
from the lab data product API is modelled by the one key
`create_new_case_internal` reads: `product.get("canton", "na")`. -/

structure CaseRecord where
  case_id : String
  patient_id : String
  case_date : String
  case_class : String
  case_status : String
  pathogen : String
  canton : String
  deriving DecidableEq

structure CreateCaseFromDataProduct where
  product_id : String
  patient_id : String
  pathogen_code : String
  pathogen_description : String
  timestamp : String
  stored_at : Int
  created_at : Int
  deriving DecidableEq

structure LabProductView where
  canton : Option String
  deriving DecidableEq

/-- `create_new_case_internal` of `handlers.py` (lines 107–133): builds the new
`CaseRecord` with the literal values of the source and adds it to the
repository (`uow.cases.add`), returning the freshly generated id.  The random
`uuid4()` is the explicit `freshId` argument. -/
def create_new_case_internal (product : LabProductView)
    (command : CreateCaseFromDataProduct) (freshId : String)
    (cases : List CaseRecord) : String × List CaseRecord :=
  let new_case : CaseRecord :=
    { case_id := freshId
      patient_id := command.patient_id
      case_date := command.timestamp
      case_class := "sicherer Fall"
      case_status := "neu"
      pathogen := command.pathogen_description
      canton := product.canton.getD "na" }
  (freshId, cases ++ [new_case])

/-! ### Helper lemmas about the link-insertion step -/

theorem linkPair_any_iff (id case_id : String) (fmt : List LinkRow) :
    (fmt.any fun l => l.ID == id && l.case_ID == case_id) = true ↔
      ({ ID := id, case_ID := case_id } : LinkRow) ∈ fmt := by
  simp only [List.any_eq_true, Bool.and_eq_true, beq_iff_eq]
  constructor
  · rintro ⟨⟨lid, lcid⟩, hl, h1, h2⟩
    subst h1
    subst h2
    exact hl
  · intro h
    exact ⟨_, h, rfl, rfl⟩

theorem mem_addLinkIfAbsent_self (id case_id : String) (fmt : List LinkRow) :
    ({ ID := id, case_ID := case_id } : LinkRow) ∈ addLinkIfAbsent id case_id fmt := by
  by_cases h : (fmt.any fun l => l.ID == id && l.case_ID == case_id) = true
  · rw [addLinkIfAbsent, if_pos h]
    exact (linkPair_any_iff id case_id fmt).mp h
  · rw [addLinkIfAbsent, if_neg h]
    exact List.mem_append_right _ (List.mem_singleton_self _)

theorem mem_addLinkIfAbsent_elim {l : LinkRow} {id case_id : String}
    {fmt : List LinkRow} (h : l ∈ addLinkIfAbsent id case_id fmt) :
    l ∈ fmt ∨ l = { ID := id, case_ID := case_id } := by
  by_cases hany : (fmt.any fun l => l.ID == id && l.case_ID == case_id) = true
  · rw [addLinkIfAbsent, if_pos hany] at h
    exact Or.inl h
  · rw [addLinkIfAbsent, if_neg hany] at h
    rcases List.mem_append.mp h with h2 | h2
    · exact Or.inl h2
    · exact Or.inr (List.mem_singleton.mp h2)

/-! ### Claims about the matching and linking core -/

/-- Two cases of the same patient and pathogen are always more than the case
window apart — the "at most one case per (patient, pathogen, window)" shape of
the case table. -/
def windowSeparated (w : Int) (fdp : List CaseRow) : Prop :=
  List.Pairwise (fun r1 r2 =>
    (r1.Patient_ID = r2.Patient_ID ∧ r1.Pathogen_code = r2.Pathogen_code) →
      w < absDayDiff r1.Date r2.Date) fdp

/-- Claim C1: when a case of the same patient and pathogen already lies within
the window of the incoming report's date, `upsert_case_and_link_id` leaves the
case table exactly as it was (no new `Case` row); moreover the invariant that
any two cases of one patient and pathogen are more than the window apart is
preserved by every call, so at most one case exists per
(patient, pathogen, window). -/
theorem upsert_reuses_case_within_window (incoming : IncomingElement)
    (fdp : List CaseRow) (fmt : List LinkRow) (freshId : String) (w : Int) :
    ((∃ r ∈ fdp, r.Patient_ID = incoming.Patient_ID ∧
        r.Pathogen_code = incoming.Pathogen_code ∧
        absDayDiff r.Date incoming.Date ≤ w) →
      (upsert_case_and_link_id incoming fdp fmt freshId w).falldatenprodukt = fdp) ∧
    (windowSeparated w fdp →
      windowSeparated w
        (upsert_case_and_link_id incoming fdp fmt freshId w).falldatenprodukt) := by
  have hspec := (upsert_spec incoming fdp fmt freshId w).2
  constructor
  · rintro ⟨r, hr, hpat, hpath, hwin⟩
    rcases hspec with ⟨hit, _, _, hfdp⟩ | ⟨hwinnil, _, hfdp⟩
    · exact hfdp
    · exfalso
      have : r ∈ withinWindow incoming w fdp :=
        (mem_withinWindow_iff incoming w fdp r).mpr ⟨hr, hpat, hpath, hwin⟩
      rw [hwinnil] at this
      exact List.not_mem_nil r this
  · intro hsep
    rcases hspec with ⟨hit, _, _, hfdp⟩ | ⟨hwinnil, _, hfdp⟩
    · rw [hfdp]
      exact hsep
    · rw [hfdp]
      refine List.pairwise_append.mpr ⟨hsep, List.pairwise_singleton _ _, ?_⟩
      intro r1 hr1 r2 hr2
      rw [List.mem_singleton] at hr2
      subst hr2
      rintro ⟨hpat, hpath⟩
      by_contra hle
      have hwin : absDayDiff r1.Date incoming.Date ≤ w := le_of_not_lt hle
      have : r1 ∈ withinWindow incoming w fdp :=
        (mem_withinWindow_iff incoming w fdp r1).mpr ⟨hr1, hpat, hpath, hwin⟩
      rw [hwinnil] at this
      exact List.not_mem_nil r1 this

/-- Witness for C1: patient `P1` / pathogen `A123` with a case dated day 0 and
a report dated day 14 — the case table is unchanged and stays
window-separated. -/
theorem upsert_reuses_case_within_window_witness :
    (upsert_case_and_link_id ⟨"P1", "A123", 14, "R2"⟩
        [{ case_ID := "X", Patient_ID := "P1", Pathogen_code := "A123", Date := 0 }]
        [] "fresh" 28).falldatenprodukt =
      [{ case_ID := "X", Patient_ID := "P1", Pathogen_code := "A123", Date := 0 }] :=
  (upsert_reuses_case_within_window ⟨"P1", "A123", 14, "R2"⟩
      [{ case_ID := "X", Patient_ID := "P1", Pathogen_code := "A123", Date := 0 }]
      [] "fresh" 28).1 (by decide)

/-- Claim C2 (amended): when the in-window candidate set is non-empty the
returned case has the smallest absolute day difference, but a tie between
equal differences is broken by the candidate occupying the earliest row of the
case table (the first minimal row in insertion order, pandas `idxmin`), not by
the earliest `case_date`. -/
theorem upsert_picks_first_nearest (incoming : IncomingElement)
    (fdp : List CaseRow) (fmt : List LinkRow) (freshId : String) (w : Int)
    (hcand : ∃ r ∈ fdp, r.Patient_ID = incoming.Patient_ID ∧
      r.Pathogen_code = incoming.Pathogen_code ∧
      absDayDiff r.Date incoming.Date ≤ w) :
    ∃ hit l1 l2,
      (upsert_case_and_link_id incoming fdp fmt freshId w).case_id = hit.case_ID ∧
      withinWindow incoming w fdp = l1 ++ hit :: l2 ∧
      (∀ x ∈ withinWindow incoming w fdp,
        absDayDiff hit.Date incoming.Date ≤ absDayDiff x.Date incoming.Date) ∧
      (∀ x ∈ l1,
        absDayDiff hit.Date incoming.Date < absDayDiff x.Date incoming.Date) ∧
      (upsert_case_and_link_id incoming fdp fmt freshId w).falldatenprodukt = fdp := by
  rcases (upsert_spec incoming fdp fmt freshId w).2 with
    ⟨hit, hmin, hcase, hfdp⟩ | ⟨hwinnil, _, _⟩
  · obtain ⟨l1, l2, hsplit, hstrict⟩ := firstMinBy_first hmin
    exact ⟨hit, l1, l2, hcase, hsplit, firstMinBy_min hmin, hstrict, hfdp⟩
  · exfalso
    obtain ⟨r, hr, hpat, hpath, hwin⟩ := hcand
    have : r ∈ withinWindow incoming w fdp :=
      (mem_withinWindow_iff incoming w fdp r).mpr ⟨hr, hpat, hpath, hwin⟩
    rw [hwinnil] at this
    exact List.not_mem_nil r this

/-- Witness for C2's amended theorem at a concrete table. -/
theorem upsert_picks_first_nearest_witness :
    ∃ hit l1 l2,
      (upsert_case_and_link_id ⟨"P1", "X", 7, "R1"⟩
          [{ case_ID := "caseA", Patient_ID := "P1", Pathogen_code := "X", Date := 10 },
           { case_ID := "caseB", Patient_ID := "P1", Pathogen_code := "X", Date := 4 }]
          [] "fresh" 28).case_id = hit.case_ID ∧
      withinWindow ⟨"P1", "X", 7, "R1"⟩ 28
          [{ case_ID := "caseA", Patient_ID := "P1", Pathogen_code := "X", Date := 10 },
           { case_ID := "caseB", Patient_ID := "P1", Pathogen_code := "X", Date := 4 }] =
        l1 ++ hit :: l2 ∧
      (∀ x ∈ withinWindow ⟨"P1", "X", 7, "R1"⟩ 28
          [{ case_ID := "caseA", Patient_ID := "P1", Pathogen_code := "X", Date := 10 },
           { case_ID := "caseB", Patient_ID := "P1", Pathogen_code := "X", Date := 4 }],
        absDayDiff hit.Date 7 ≤ absDayDiff x.Date 7) ∧
      (∀ x ∈ l1, absDayDiff hit.Date 7 < absDayDiff x.Date 7) ∧
      (upsert_case_and_link_id ⟨"P1", "X", 7, "R1"⟩
          [{ case_ID := "caseA", Patient_ID := "P1", Pathogen_code := "X", Date := 10 },
           { case_ID := "caseB", Patient_ID := "P1", Pathogen_code := "X", Date := 4 }]
          [] "fresh" 28).falldatenprodukt =
        [{ case_ID := "caseA", Patient_ID := "P1", Pathogen_code := "X", Date := 10 },
         { case_ID := "caseB", Patient_ID := "P1", Pathogen_code := "X", Date := 4 }] :=
  upsert_picks_first_nearest ⟨"P1", "X", 7, "R1"⟩
    [{ case_ID := "caseA", Patient_ID := "P1", Pathogen_code := "X", Date := 10 },
     { case_ID := "caseB", Patient_ID := "P1", Pathogen_code := "X", Date := 4 }]
    [] "fresh" 28 (by decide)

/-- Counterexample to C2 as stated: two candidates tie at a 3-day difference;
the code returns `caseA` (the earlier table row, `case_date` day 10) although
`caseB` has the earlier `case_date` (day 4). -/
theorem upsert_tiebreak_not_earliest_case_date :
    (upsert_case_and_link_id ⟨"P1", "X", 7, "R1"⟩
        [{ case_ID := "caseA", Patient_ID := "P1", Pathogen_code := "X", Date := 10 },
         { case_ID := "caseB", Patient_ID := "P1", Pathogen_code := "X", Date := 4 }]
        [] "fresh").case_id = "caseA" ∧
    absDayDiff 10 7 = 3 ∧ absDayDiff 4 7 = 3 ∧ (4 : Int) < 10 ∧
    ("caseA" : String) ≠ "caseB" := by
  decide

/-- Claim C3 (amended): with no candidate inside the window, the pandas
classifier appends exactly one row seeded from the fact — `case_ID` the fresh
UUID, `Patient_ID`/`Pathogen_code` copied, `Date` the fact's date, and
`case_class` (like every derived column) left `NaN`, i.e. unclassified; no
`case_status` column exists there.  The DB-backed
`create_new_case_internal`, by contrast, creates the `CaseRecord` with
`case_class = "sicherer Fall"`, `case_status = "neu"`, `pathogen` the
pathogen description, and `canton` from the product (default `"na"`). -/
theorem new_case_seeded_from_fact (incoming : IncomingElement)
    (fdp : List CaseRow) (fmt : List LinkRow) (freshId : String) (w : Int)
    (product : LabProductView) (command : CreateCaseFromDataProduct)
    (st : List CaseRecord) :
    ((∀ r ∈ fdp, r.Patient_ID = incoming.Patient_ID →
        r.Pathogen_code = incoming.Pathogen_code →
        w < absDayDiff r.Date incoming.Date) →
      (upsert_case_and_link_id incoming fdp fmt freshId w).case_id = freshId ∧
      (upsert_case_and_link_id incoming fdp fmt freshId w).falldatenprodukt =
        fdp ++ [newCaseRow incoming freshId] ∧
      (newCaseRow incoming freshId).case_class = none) ∧
    create_new_case_internal product command freshId st =
      (freshId, st ++
        [{ case_id := freshId
           patient_id := command.patient_id
           case_date := command.timestamp
           case_class := "sicherer Fall"
           case_status := "neu"
           pathogen := command.pathogen_description
           canton := product.canton.getD "na" }]) := by
  constructor
  · intro hfar
    have hwinnil : withinWindow incoming w fdp = [] := by
      rw [List.eq_nil_iff_forall_not_mem]
      intro r hr
      rw [mem_withinWindow_iff] at hr
      exact absurd hr.2.2.2 (not_le_of_lt (hfar r hr.1 hr.2.1 hr.2.2.1))
    rcases (upsert_spec incoming fdp fmt freshId w).2 with
      ⟨hit, hmin, _, _⟩ | ⟨_, hcase, hfdp⟩
    · rw [hwinnil] at hmin
      simp [firstMinBy] at hmin
    · exact ⟨hcase, hfdp, rfl⟩
  · rfl

/-- Witness for C3's amended theorem: an empty case table forces creation and
the appended row is the seeded one. -/
theorem new_case_seeded_from_fact_witness :
    ((upsert_case_and_link_id ⟨"P1", "A123", 14, "R2"⟩ [] [] "fresh" 28).case_id =
        "fresh" ∧
      (upsert_case_and_link_id ⟨"P1", "A123", 14, "R2"⟩ [] [] "fresh" 28).falldatenprodukt =
        [] ++ [newCaseRow ⟨"P1", "A123", 14, "R2"⟩ "fresh"] ∧
      (newCaseRow ⟨"P1", "A123", 14, "R2"⟩ "fresh").case_class = none) ∧
    create_new_case_internal ⟨some "ZH"⟩
        ⟨"prod1", "P1", "A123", "Influenza", "2025-10-01", 0, 0⟩ "fresh" [] =
      ("fresh", [] ++
        [{ case_id := "fresh"
           patient_id := "P1"
           case_date := "2025-10-01"
           case_class := "sicherer Fall"
           case_status := "neu"
           pathogen := "Influenza"
           canton := "ZH" }]) := by
  have h := new_case_seeded_from_fact ⟨"P1", "A123", 14, "R2"⟩ [] [] "fresh" 28
    ⟨some "ZH"⟩ ⟨"prod1", "P1", "A123", "Influenza", "2025-10-01", 0, 0⟩ []
  exact ⟨h.1 (by decide), h.2⟩

/-- Counterexample to C3 as stated: the DB-backed creation path persists the
new case with `case_class = "sicherer Fall"` (not unclassified),
`case_status = "neu"` (not `"new"`), and the pathogen description (not the
pathogen code). -/
theorem new_case_fields_not_as_claimed :
    (create_new_case_internal ⟨some "ZH"⟩
        ⟨"prod1", "P1", "A123", "Influenza", "2025-10-01", 0, 0⟩ "fresh" []).2 =
      [{ case_id := "fresh"
         patient_id := "P1"
         case_date := "2025-10-01"
         case_class := "sicherer Fall"
         case_status := "neu"
         pathogen := "Influenza"
         canton := "ZH" }] ∧
    ("sicherer Fall" : String) ≠ "unclassified" ∧
    ("neu" : String) ≠ "new" ∧ ("Influenza" : String) ≠ "A123" := by
  decide

/-- Claim C5: link insertion is idempotent — inserting a `(report_id, case_id)`
pair that is already present leaves the link table unchanged, a pair present
at most once is present exactly once afterwards, and repeating the insertion
changes nothing. -/
theorem link_insertion_idempotent (id case_id : String) (fmt : List LinkRow) :
    (({ ID := id, case_ID := case_id } : LinkRow) ∈ fmt →
      addLinkIfAbsent id case_id fmt = fmt) ∧
    (List.count ({ ID := id, case_ID := case_id } : LinkRow) fmt ≤ 1 →
      List.count ({ ID := id, case_ID := case_id } : LinkRow)
        (addLinkIfAbsent id case_id fmt) = 1) ∧
    addLinkIfAbsent id case_id (addLinkIfAbsent id case_id fmt) =
      addLinkIfAbsent id case_id fmt := by
  have hstable : ∀ fmt2 : List LinkRow,
      ({ ID := id, case_ID := case_id } : LinkRow) ∈ fmt2 →
      addLinkIfAbsent id case_id fmt2 = fmt2 := by
    intro fmt2 hmem
    rw [addLinkIfAbsent, if_pos ((linkPair_any_iff id case_id fmt2).mpr hmem)]
  refine ⟨hstable fmt, ?_, hstable _ (mem_addLinkIfAbsent_self id case_id fmt)⟩
  intro hle
  by_cases hmem : ({ ID := id, case_ID := case_id } : LinkRow) ∈ fmt
  · rw [hstable fmt hmem]
    have hpos : 0 < List.count ({ ID := id, case_ID := case_id } : LinkRow) fmt :=
      List.count_pos_iff.mpr hmem
    omega
  · have hany : ¬ ((fmt.any fun l => l.ID == id && l.case_ID == case_id) = true) := by
      rw [linkPair_any_iff]
      exact hmem
    rw [addLinkIfAbsent, if_neg hany, List.count_append,
      List.count_eq_zero.mpr hmem]
    simp

/-- Witness for C5 at a concrete link table. -/
theorem link_insertion_idempotent_witness :
    addLinkIfAbsent "R1" "X" [{ ID := "R1", case_ID := "X" }] =
      [{ ID := "R1", case_ID := "X" }] :=
  (link_insertion_idempotent "R1" "X" [{ ID := "R1", case_ID := "X" }]).1 (by decide)

/-- Claim C6: the window test is symmetric in time — a fact dated `d` days
before a case's `case_date` has the same absolute day difference, and passes
the within-window filter for exactly the same tables, as a fact dated `d` days
after it (the comparison takes the absolute value of the date difference, so
matching does not depend on arrival order). -/
theorem window_test_time_symmetric (r : CaseRow) (w d : Int)
    (fb fa : IncomingElement) (fdp : List CaseRow)
    (hpat : fb.Patient_ID = fa.Patient_ID)
    (hpath : fb.Pathogen_code = fa.Pathogen_code)
    (hb : fb.Date = r.Date - d) (ha : fa.Date = r.Date + d) :
    absDayDiff r.Date fb.Date = absDayDiff r.Date fa.Date ∧
    (r ∈ withinWindow fb w fdp ↔ r ∈ withinWindow fa w fdp) := by
  have h1 : absDayDiff r.Date fb.Date = absDayDiff r.Date fa.Date := by
    rw [hb, ha]
    unfold absDayDiff
    omega
  refine ⟨h1, ?_⟩
  rw [mem_withinWindow_iff, mem_withinWindow_iff, hpat, hpath, h1]

/-- Witness for C6: a report 5 days before the case's date and one 5 days
after it behave identically. -/
theorem window_test_time_symmetric_witness :
    absDayDiff 10 5 = absDayDiff 10 15 ∧
    (({ case_ID := "X", Patient_ID := "P1", Pathogen_code := "A", Date := 10 } : CaseRow) ∈
        withinWindow ⟨"P1", "A", 5, "Rb"⟩ 28
          [{ case_ID := "X", Patient_ID := "P1", Pathogen_code := "A", Date := 10 }] ↔
      ({ case_ID := "X", Patient_ID := "P1", Pathogen_code := "A", Date := 10 } : CaseRow) ∈
        withinWindow ⟨"P1", "A", 15, "Ra"⟩ 28
          [{ case_ID := "X", Patient_ID := "P1", Pathogen_code := "A", Date := 10 }]) :=
  window_test_time_symmetric
    { case_ID := "X", Patient_ID := "P1", Pathogen_code := "A", Date := 10 } 28 5
    ⟨"P1", "A", 5, "Rb"⟩ ⟨"P1", "A", 15, "Ra"⟩
    [{ case_ID := "X", Patient_ID := "P1", Pathogen_code := "A", Date := 10 }]
    rfl rfl (by decide) (by decide)

/-- Claim C10: after every call to `upsert_case_and_link_id` the case table
holds a row carrying the returned `case_id` and the link table holds the pair
`(incoming.ID, case_id)`; referential integrity of the link table (every
linked `case_ID` names an existing case row) is preserved. -/
theorem upsert_referential_integrity (incoming : IncomingElement)
    (fdp : List CaseRow) (fmt : List LinkRow) (freshId : String) (w : Int) :
    (∃ r ∈ (upsert_case_and_link_id incoming fdp fmt freshId w).falldatenprodukt,
      r.case_ID = (upsert_case_and_link_id incoming fdp fmt freshId w).case_id) ∧
    ({ ID := incoming.ID,
        case_ID := (upsert_case_and_link_id incoming fdp fmt freshId w).case_id } :
        LinkRow) ∈
      (upsert_case_and_link_id incoming fdp fmt freshId w).fall_meldung_tabelle ∧
    ((∀ l ∈ fmt, ∃ r ∈ fdp, r.case_ID = l.case_ID) →
      ∀ l ∈ (upsert_case_and_link_id incoming fdp fmt freshId w).fall_meldung_tabelle,
        ∃ r ∈ (upsert_case_and_link_id incoming fdp fmt freshId w).falldatenprodukt,
          r.case_ID = l.case_ID) := by
  obtain ⟨hlink, hspec⟩ := upsert_spec incoming fdp fmt freshId w
  have hrow : ∃ r ∈ (upsert_case_and_link_id incoming fdp fmt freshId w).falldatenprodukt,
      r.case_ID = (upsert_case_and_link_id incoming fdp fmt freshId w).case_id := by
    rcases hspec with ⟨hit, hmin, hcase, hfdp⟩ | ⟨_, hcase, hfdp⟩
    · have hmem : hit ∈ fdp :=
        ((mem_withinWindow_iff incoming w fdp hit).mp (firstMinBy_mem hmin)).1
      exact ⟨hit, by rw [hfdp]; exact hmem, by rw [hcase]⟩
    · exact ⟨newCaseRow incoming freshId,
        by rw [hfdp]; exact List.mem_append_right _ (List.mem_singleton_self _),
        by rw [hcase]; rfl⟩
  refine ⟨hrow, ?_, ?_⟩
  · rw [hlink]
    exact mem_addLinkIfAbsent_self _ _ _
  · intro hri l hl
    rw [hlink] at hl
    rcases mem_addLinkIfAbsent_elim hl with hold | rfl
    · obtain ⟨r, hr, hrcase⟩ := hri l hold
      rcases hspec with ⟨_, _, _, hfdp⟩ | ⟨_, _, hfdp⟩
      · exact ⟨r, by rw [hfdp]; exact hr, hrcase⟩
      · exact ⟨r, by rw [hfdp]; exact List.mem_append_left _ hr, hrcase⟩
    · exact hrow

/-- Witness for C10 at a concrete call creating a fresh case. -/
theorem upsert_referential_integrity_witness :
    ({ ID := "R1",
        case_ID := (upsert_case_and_link_id ⟨"P1", "A123", 3, "R1"⟩ [] [] "fresh" 28).case_id } :
        LinkRow) ∈
      (upsert_case_and_link_id ⟨"P1", "A123", 3, "R1"⟩ [] [] "fresh" 28).fall_meldung_tabelle :=
  (upsert_referential_integrity ⟨"P1", "A123", 3, "R1"⟩ [] [] "fresh" 28).2.1

/-! ### `collect_case_evidence` (`classifier.py`, lines 127–219)

String cells are handled as Python does: `str(x).strip().lower()` becomes
`pyLower (pyStrip x)`.  `pyStrip`/`pyLower` model `str.strip`/`str.lower` on
the ASCII data the system carries.  `uniqueFirst` models pandas
`Series.unique`, which keeps the first occurrence of each value.  The source
first creates any of the five derived columns that are missing (filled with
`NaN`); the typed rows here always carry all five as `Option` fields, so that
step is implicit.  The lab and clinical `date` columns are already datetimes
(`ensure_datetime` then leaves them untouched), modelled as `Int` days. -/

def stripL (l : List Char) : List Char :=
  ((l.dropWhile Char.isWhitespace).reverse.dropWhile Char.isWhitespace).reverse

def pyStrip (s : String) : String :=
  ⟨stripL s.data⟩

def pyLower (s : String) : String :=
  ⟨s.data.map Char.toLower⟩

/-- Plain case-insensitive equality of strings (the spec's "case-insensitively
equals"): equal after lowercasing, with no whitespace stripping. -/
abbrev eqCI (s t : String) : Prop :=
  pyLower s = pyLower t

/-- The `case_class` rule of `collect_case_evidence` (lines 179–193):
`str(lb_interp).strip().lower()` compared against `"pos"`/`"neg"`, otherwise
`NaN`; with no lab interpretation, a non-blank manifestation gives
`"wahrscheinlicher Fall"`, otherwise `NaN`. -/
def caseClassOf (lb_interp : Option String) (kb_manifest : Option String) :
    Option String :=
  match lb_interp with
  | some interp =>
    if pyLower (pyStrip interp) = "pos" then some "sicherer Fall"
    else if pyLower (pyStrip interp) = "neg" then some "kein Fall"
    else none
  | none =>
    match kb_manifest with
    | some m => if pyStrip m ≠ "" then some "wahrscheinlicher Fall" else none
    | none => none

def uniqueFirstAux (seen : List String) : List String → List String
  | [] => []
  | x :: xs =>
    if seen.contains x then uniqueFirstAux seen xs
    else x :: uniqueFirstAux (x :: seen) xs

/-- pandas `Series.unique`: drop duplicates, keeping first occurrences. -/
def uniqueFirst (l : List String) : List String :=
  uniqueFirstAux [] l

/-- `fall_meldung_tabelle.loc[fall_meldung_tabelle["case_ID"] == case_id, "ID"].unique()`. -/
def idsForCase (case_id : String) (fall_meldung_tabelle : List LinkRow) :
    List String :=
  uniqueFirst ((fall_meldung_tabelle.filter fun l => l.case_ID == case_id).map LinkRow.ID)

/-- Lines 195–208: write the five derived values onto every row of the target
case — but only if at least one row matches (`if mask_case.any()`). -/
def writeBack (case_id : String) (lb_date : Option Int) (lb_interp : Option String)
    (kb_date : Option Int) (kb_manifest : Option String) (case_class : Option String)
    (falldatenprodukt : List CaseRow) : List CaseRow :=
  if falldatenprodukt.any fun r => r.case_ID == case_id then
    falldatenprodukt.map fun r =>
      if r.case_ID == case_id then
        { r with
            lb_date := lb_date
            lb_interpretation := lb_interp
            kb_date := kb_date
            kb_manifestation := kb_manifest
            case_class := case_class }
      else r
  else falldatenprodukt

/-- The dict `collect_case_evidence` returns. -/
structure EvidenceResult where
  case_ID : String
  IDs : List String
  lb_date : Option Int
  interpretation : Option String
  kb_date : Option Int
  manifestation : Option String
  case_class : Option String
  deriving DecidableEq

/-- `collect_case_evidence`: gather the linked report ids, take the earliest
lab row and the earliest clinical row among them (`idxmin` on the date, i.e.
the first row attaining the earliest date), derive `case_class`, write the
derived fields back onto the case row(s), and return the summary together
with the updated case table (the function mutates `falldatenprodukt` in
place; the updated table is returned explicitly here). -/
def collect_case_evidence (case_id : String) (falldatenprodukt : List CaseRow)
    (fall_meldung_tabelle : List LinkRow) (labordatenprodukt : List LabRow)
    (klinikdatenprodukt : List KlinikRow) : EvidenceResult × List CaseRow :=
  let ids_for_case := idsForCase case_id fall_meldung_tabelle
  let lab_rows := labordatenprodukt.filter fun r => ids_for_case.contains r.ID
  let lbPair : Option Int × Option String :=
    match firstMinBy (fun (r : LabRow) => r.date) lab_rows with
    | some r => (some r.date, r.interpretation)
    | none => (none, none)
  let klinik_rows := klinikdatenprodukt.filter fun r => ids_for_case.contains r.ID
  let kbPair : Option Int × Option String :=
    match firstMinBy (fun (r : KlinikRow) => r.date) klinik_rows with
    | some r => (some r.date, r.manifestation)
    | none => (none, none)
  let case_class := caseClassOf lbPair.2 kbPair.2
  ({ case_ID := case_id
     IDs := ids_for_case
     lb_date := lbPair.1
     interpretation := lbPair.2
     kb_date := kbPair.1
     manifestation := kbPair.2
     case_class := case_class },
   writeBack case_id lbPair.1 lbPair.2 kbPair.1 kbPair.2 case_class falldatenprodukt)

/-! ### Helper lemmas for the string normalisation and the write-back -/

theorem toLower_eq_self_of_isWhitespace {c : Char} (h : c.isWhitespace = true) :
    Char.toLower c = c := by
  have h2 : ((c = ' ' ∨ c = '\t') ∨ c = '\r') ∨ c = '\n' := by
    simpa [Char.isWhitespace] using h
  rcases h2 with ((rfl | rfl) | rfl) | rfl <;> decide

theorem dropWhile_eq_self_of_all {α : Type} (p : α → Bool) (l : List α)
    (h : ∀ c ∈ l, p c = false) : l.dropWhile p = l := by
  cases l with
  | nil => rfl
  | cons a l =>
    rw [List.dropWhile_cons, h a (List.mem_cons_self a l)]
    simp

theorem pyStrip_eq_self_of_no_ws (s : String)
    (h : ∀ c ∈ s.data, c.isWhitespace = false) : pyStrip s = s := by
  have h1 : s.data.dropWhile Char.isWhitespace = s.data :=
    dropWhile_eq_self_of_all _ _ h
  have h2 : s.data.reverse.dropWhile Char.isWhitespace = s.data.reverse :=
    dropWhile_eq_self_of_all _ _ fun c hc => h c (List.mem_reverse.mp hc)
  show (⟨stripL s.data⟩ : String) = s
  rw [stripL, h1, h2, List.reverse_reverse]

theorem no_ws_of_pyLower_eq (s t : String) (h : pyLower s = t)
    (ht : ∀ c ∈ t.data, c.isWhitespace = false) :
    ∀ c ∈ s.data, c.isWhitespace = false := by
  intro c hc
  by_contra hws
  have hws2 : c.isWhitespace = true := by simpa using hws
  have heq : Char.toLower c = c := toLower_eq_self_of_isWhitespace hws2
  have hmem : Char.toLower c ∈ t.data := by
    rw [← h]
    exact List.mem_map_of_mem Char.toLower hc
  rw [heq] at hmem
  exact absurd (ht c hmem) (by simp [hws2])

theorem writeBack_frame (case_id : String) (lbd : Option Int) (lbi : Option String)
    (kbd : Option Int) (kbm : Option String) (cc : Option String)
    (fdp : List CaseRow) :
    List.Forall₂ (fun r r2 =>
        r2.case_ID = r.case_ID ∧ r2.Patient_ID = r.Patient_ID ∧
        r2.Pathogen_code = r.Pathogen_code ∧ r2.Date = r.Date ∧
        (r.case_ID ≠ case_id → r2 = r))
      fdp (writeBack case_id lbd lbi kbd kbm cc fdp) := by
  rw [writeBack]
  by_cases hany : (fdp.any fun r => r.case_ID == case_id) = true
  · rw [if_pos hany, List.forall₂_map_right_iff]
    refine List.forall₂_same.mpr fun r _ => ?_
    by_cases hc : (r.case_ID == case_id) = true
    · rw [if_pos hc]
      exact ⟨rfl, rfl, rfl, rfl, fun hne => absurd (beq_iff_eq.mp hc) hne⟩
    · rw [if_neg hc]
      exact ⟨rfl, rfl, rfl, rfl, fun _ => rfl⟩
  · rw [if_neg hany]
    exact List.forall₂_same.mpr fun r _ => ⟨rfl, rfl, rfl, rfl, fun _ => rfl⟩

/-! ### Claims about the evidence aggregation -/

/-- Claim C4 (amended): the classification compares the earliest lab
interpretation after stripping surrounding whitespace and lowercasing
(`str.strip().lower()`): any value equal to `"pos"`/`"neg"` after that
normalisation — e.g. a padded `" POS "`, and in particular any value plainly
case-insensitively equal to `"pos"`/`"neg"` — classifies as
`"sicherer Fall"`/`"kein Fall"` even when a clinical manifestation is present,
a present value whose stripped lowercase form is neither gives unclassified
even when clinical evidence exists, no lab value plus a non-blank
manifestation gives `"wahrscheinlicher Fall"`, and otherwise the case stays
unclassified. -/
theorem case_class_priority (s t : String) (m : Option String) :
    (pyLower (pyStrip s) = "pos" → caseClassOf (some s) m = some "sicherer Fall") ∧
    (pyLower (pyStrip s) = "neg" → caseClassOf (some s) m = some "kein Fall") ∧
    (eqCI s "pos" → caseClassOf (some s) m = some "sicherer Fall") ∧
    (eqCI s "neg" → caseClassOf (some s) m = some "kein Fall") ∧
    (pyLower (pyStrip s) ≠ "pos" → pyLower (pyStrip s) ≠ "neg" →
      caseClassOf (some s) m = none) ∧
    (pyStrip t ≠ "" → caseClassOf none (some t) = some "wahrscheinlicher Fall") ∧
    (pyStrip t = "" → caseClassOf none (some t) = none) ∧
    caseClassOf none none = none := by
  have hpos : pyLower (pyStrip s) = "pos" → caseClassOf (some s) m = some "sicherer Fall" := by
    intro h
    simp [caseClassOf, h]
  have hneg : pyLower (pyStrip s) = "neg" → caseClassOf (some s) m = some "kein Fall" := by
    intro h
    simp [caseClassOf, h]
  refine ⟨hpos, hneg, ?_, ?_, ?_, ?_, ?_, rfl⟩
  · intro h
    have hp : pyLower s = "pos" := by
      rw [h]
      decide
    have hstrip : pyStrip s = s :=
      pyStrip_eq_self_of_no_ws s (no_ws_of_pyLower_eq s "pos" hp (by decide))
    exact hpos (by rw [hstrip, hp])
  · intro h
    have hp : pyLower s = "neg" := by
      rw [h]
      decide
    have hstrip : pyStrip s = s :=
      pyStrip_eq_self_of_no_ws s (no_ws_of_pyLower_eq s "neg" hp (by decide))
    exact hneg (by rw [hstrip, hp])
  · intro h1 h2
    simp [caseClassOf, h1, h2]
  · intro h
    simp [caseClassOf, h]
  · intro h
    simp [caseClassOf, h]

/-- Witness for C4: the padded lab value `" POS "` normalises to `"pos"` and
wins over a present manifestation. -/
theorem case_class_priority_witness :
    caseClassOf (some " POS ") (some "Urethritis") = some "sicherer Fall" :=
  (case_class_priority " POS " "Urethritis" (some "Urethritis")).1 (by decide)

/-- Counterexample to C4 as stated: the lab value `" pos "` is present and is
not case-insensitively equal to `"pos"` (nor `"neg"`), so the claim demands
unclassified, but the code strips it and classifies `"sicherer Fall"`; and a
manifestation `" "` is present and non-empty, so the claim demands
`"wahrscheinlicher Fall"`, but the code treats it as blank and leaves the case
unclassified. -/
theorem case_class_strip_counterexample :
    caseClassOf (some " pos ") (some "Urethritis") = some "sicherer Fall" ∧
    pyLower " pos " ≠ pyLower "pos" ∧ pyLower " pos " ≠ pyLower "neg" ∧
    caseClassOf none (some " ") = none ∧ (" " : String) ≠ "" := by
  decide

/-- Claim C7 (amended): `collect_case_evidence` raises nothing for an unknown
`case_id` — it returns its summary and leaves the case table unchanged (the
write-back is guarded by `mask_case.any()`); and for a case with no linked lab
or clinical evidence the derived fields of the result stay at their defaults
(`NaT` dates, `NaN` interpretation/manifestation, unclassified). -/
theorem collect_evidence_missing_and_defaults (case_id : String)
    (fdp : List CaseRow) (fmt : List LinkRow) (lab : List LabRow)
    (klinik : List KlinikRow) :
    ((∀ r ∈ fdp, r.case_ID ≠ case_id) →
      (collect_case_evidence case_id fdp fmt lab klinik).2 = fdp) ∧
    ((∀ lr ∈ lab, lr.ID ∉ idsForCase case_id fmt) →
      (∀ kr ∈ klinik, kr.ID ∉ idsForCase case_id fmt) →
      (collect_case_evidence case_id fdp fmt lab klinik).1.lb_date = none ∧
      (collect_case_evidence case_id fdp fmt lab klinik).1.interpretation = none ∧
      (collect_case_evidence case_id fdp fmt lab klinik).1.kb_date = none ∧
      (collect_case_evidence case_id fdp fmt lab klinik).1.manifestation = none ∧
      (collect_case_evidence case_id fdp fmt lab klinik).1.case_class = none) := by
  constructor
  · intro h
    have hany : (fdp.any fun r => r.case_ID == case_id) = false := by
      rw [Bool.eq_false_iff]
      intro hc
      obtain ⟨r, hr, hbeq⟩ := List.any_eq_true.mp hc
      exact h r hr (beq_iff_eq.mp hbeq)
    simp [collect_case_evidence, writeBack, hany]
  · intro hlab hklinik
    have h1 : lab.filter (fun r => (idsForCase case_id fmt).contains r.ID) = [] := by
      rw [List.filter_eq_nil_iff]
      intro lr hlr
      simpa using hlab lr hlr
    have h2 : klinik.filter (fun r => (idsForCase case_id fmt).contains r.ID) = [] := by
      rw [List.filter_eq_nil_iff]
      intro kr hkr
      simpa using hklinik kr hkr
    simp only [collect_case_evidence]
    rw [h1, h2]
    simp [firstMinBy, caseClassOf]

/-- Witness for C7's amended theorem at a concrete store. -/
theorem collect_evidence_no_error_witness :
    (collect_case_evidence "Y"
        [{ case_ID := "X", Patient_ID := "P1", Pathogen_code := "A", Date := 0 }]
        [] [] []).2 =
      [{ case_ID := "X", Patient_ID := "P1", Pathogen_code := "A", Date := 0 }] :=
  (collect_evidence_missing_and_defaults "Y"
      [{ case_ID := "X", Patient_ID := "P1", Pathogen_code := "A", Date := 0 }]
      [] [] []).1 (by decide)

/-- Counterexample to C7 as stated: invoked with a `case_id` that exists
nowhere in the case store, the aggregator does not fail with any error — it
returns its summary (all derived fields at defaults) and the store is
untouched. -/
theorem collect_evidence_missing_case_returns :
    (collect_case_evidence "missing"
        [{ case_ID := "X", Patient_ID := "P1", Pathogen_code := "A", Date := 0 }]
        [] [] []).2 =
      [{ case_ID := "X", Patient_ID := "P1", Pathogen_code := "A", Date := 0 }] ∧
    (collect_case_evidence "missing"
        [{ case_ID := "X", Patient_ID := "P1", Pathogen_code := "A", Date := 0 }]
        [] [] []).1.case_class = none ∧
    ("X" : String) ≠ "missing" := by
  decide

/-- Claim C9: the evidence aggregation only ever touches the five derived
fields of rows of the target case: the case table keeps its length and order,
every row keeps its `case_ID`, `Patient_ID`, `Pathogen_code` and `Date`, and
every row of a different case is left entirely unchanged. -/
theorem collect_evidence_frame (case_id : String) (fdp : List CaseRow)
    (fmt : List LinkRow) (lab : List LabRow) (klinik : List KlinikRow) :
    List.Forall₂ (fun r r2 =>
        r2.case_ID = r.case_ID ∧ r2.Patient_ID = r.Patient_ID ∧
        r2.Pathogen_code = r.Pathogen_code ∧ r2.Date = r.Date ∧
        (r.case_ID ≠ case_id → r2 = r))
      fdp (collect_case_evidence case_id fdp fmt lab klinik).2 :=
  writeBack_frame case_id _ _ _ _ _ fdp

/-- Witness for C9: a table with the target case and a foreign case. -/
theorem collect_evidence_frame_witness :
    List.Forall₂ (fun r r2 =>
        r2.case_ID = r.case_ID ∧ r2.Patient_ID = r.Patient_ID ∧
        r2.Pathogen_code = r.Pathogen_code ∧ r2.Date = r.Date ∧
        (r.case_ID ≠ "X" → r2 = r))
      [{ case_ID := "X", Patient_ID := "P1", Pathogen_code := "A", Date := 0 },
       { case_ID := "Z", Patient_ID := "P2", Pathogen_code := "B", Date := 5 }]
      (collect_case_evidence "X"
        [{ case_ID := "X", Patient_ID := "P1", Pathogen_code := "A", Date := 0 },
         { case_ID := "Z", Patient_ID := "P2", Pathogen_code := "B", Date := 5 }]
        [{ ID := "R1", case_ID := "X" }] [{ ID := "R1", date := 2, interpretation := some "Pos" }]
        []).2 :=
  collect_evidence_frame "X"
    [{ case_ID := "X", Patient_ID := "P1", Pathogen_code := "A", Date := 0 },
     { case_ID := "Z", Patient_ID := "P2", Pathogen_code := "B", Date := 5 }]
    [{ ID := "R1", case_ID := "X" }] [{ ID := "R1", date := 2, interpretation := some "Pos" }]
    []

/-! ### Date-string parsing (`lab_dp/fhir/minimal_transformer.py`, lines 98–113,
and `case/service_layer/handlers.py`, lines 84–86)

`pyFromIsoFormat` models `datetime.fromisoformat` on the dashed ISO-8601
shapes this repository produces and consumes: `YYYY-MM-DD`, optionally
followed by `T` or a space and `HH:MM[:SS[.digits]]` and an optional `±HH:MM`
or `Z` offset; `none` is the `ValueError` raised for anything else.
`parse_timestamp` is `MinimalFHIRTransformer._parse_timestamp`, which
swallows that `ValueError` and returns `None`; `parseIncomingDate` is the
unguarded `datetime.fromisoformat(command.timestamp.replace('Z', '+00:00'))`
of `find_or_create_case`, which lets the `ValueError` escape. -/

def readNDigitsAux : Nat → Nat → List Char → Option (Nat × List Char)
  | 0, acc, l => some (acc, l)
  | _ + 1, _, [] => none
  | n + 1, acc, c :: l =>
    if c.isDigit then readNDigitsAux n (acc * 10 + (c.toNat - 48)) l else none

def readNDigits (n : Nat) (l : List Char) : Option (Nat × List Char) :=
  readNDigitsAux n 0 l

def expectChar (c : Char) : List Char → Option (List Char)
  | [] => none
  | x :: l => if x = c then some l else none

def isLeap (y : Nat) : Bool :=
  (y % 4 == 0 && y % 100 != 0) || y % 400 == 0

def daysInMonth (y m : Nat) : Nat :=
  if m = 2 then (if isLeap y then 29 else 28)
  else if m = 4 ∨ m = 6 ∨ m = 9 ∨ m = 11 then 30
  else 31

def readDigitsSpan : List Char → List Nat × List Char
  | [] => ([], [])
  | c :: l =>
    if c.isDigit then
      let p := readDigitsSpan l
      ((c.toNat - 48) :: p.1, p.2)
    else ([], c :: l)

/-- Microseconds from the fractional digits (first six, right-padded). -/
def toMicro (ds : List Nat) : Nat :=
  ((ds ++ List.replicate 6 0).take 6).foldl (fun a d => a * 10 + d) 0

structure PyDateTime where
  year : Nat
  month : Nat
  day : Nat
  hour : Nat
  minute : Nat
  second : Nat
  microsecond : Nat
  tzOffsetMinutes : Option Int
  deriving DecidableEq

/-- The trailing timezone part: nothing, `Z`, or `±HH:MM` (consumes the rest). -/
def readTZ : List Char → Option (Option Int)
  | [] => some none
  | ['Z'] => some (some 0)
  | c :: rest =>
    if c = '+' ∨ c = '-' then
      match readNDigits 2 rest with
      | some (h, rest2) =>
        match expectChar ':' rest2 with
        | some rest3 =>
          match readNDigits 2 rest3 with
          | some (m, []) =>
            if h ≤ 23 ∧ m ≤ 59 then
              some (some ((if c = '-' then (-1 : Int) else 1) * (h * 60 + m)))
            else none
          | _ => none
        | none => none
      | none => none
    else none

/-- The optional `:SS[.digits]` part of a time. -/
def readSeconds : List Char → Option (Nat × Nat × List Char)
  | ':' :: rest =>
    match readNDigits 2 rest with
    | some (ss, rest2) =>
      match rest2 with
      | '.' :: rest3 =>
        let p := readDigitsSpan rest3
        if p.1.isEmpty then none else some (ss, toMicro p.1, p.2)
      | _ => some (ss, 0, rest2)
    | none => none
  | l => some (0, 0, l)

def readTime (l : List Char) : Option (Nat × Nat × Nat × Nat × Option Int) :=
  match readNDigits 2 l with
  | some (hh, rest) =>
    match expectChar ':' rest with
    | some rest2 =>
      match readNDigits 2 rest2 with
      | some (mm, rest3) =>
        match readSeconds rest3 with
        | some (ss, us, rest4) =>
          match readTZ rest4 with
          | some tz =>
            if hh ≤ 23 ∧ mm ≤ 59 ∧ ss ≤ 59 then some (hh, mm, ss, us, tz)
            else none
          | none => none
        | none => none
      | none => none
    | none => none
  | none => none

/-- `datetime.fromisoformat` on the dashed ISO-8601 subset (see the section
comment); `none` models the `ValueError` for an unparseable string. -/
def pyFromIsoFormat (s : String) : Option PyDateTime := do
  let (y, r1) ← readNDigits 4 s.data
  let r2 ← expectChar '-' r1
  let (mo, r3) ← readNDigits 2 r2
  let r4 ← expectChar '-' r3
  let (d, r5) ← readNDigits 2 r4
  if 1 ≤ mo ∧ mo ≤ 12 ∧ 1 ≤ d ∧ d ≤ daysInMonth y mo then
    match r5 with
    | [] => some ⟨y, mo, d, 0, 0, 0, 0, none⟩
    | c :: r6 =>
      if c = 'T' ∨ c = ' ' then
        let (hh, mm, ss, us, tz) ← readTime r6
        some ⟨y, mo, d, hh, mm, ss, us, tz⟩
      else none
  else none

/-- Python `str.replace("Z", "+00:00")` (every occurrence). -/
def pyReplaceZL : List Char → List Char
  | [] => []
  | c :: l =>
    if c = 'Z' then '+' :: '0' :: '0' :: ':' :: '0' :: '0' :: pyReplaceZL l
    else c :: pyReplaceZL l

def pyReplaceZ (s : String) : String :=
  ⟨pyReplaceZL s.data⟩

/-- The only exception type the embedded date-parsing code can raise: Python's
`ValueError` from `datetime.fromisoformat`.  (The repository defines no
`ValidationError` anywhere.) -/
inductive PyErr where
  | valueError
  deriving DecidableEq

instance : DecidableEq (Except PyErr PyDateTime) := fun a b =>
  match a, b with
  | Except.ok x, Except.ok y =>
    if h : x = y then isTrue (by rw [h]) else isFalse (fun hc => h (Except.ok.inj hc))
  | Except.error x, Except.error y =>
    if h : x = y then isTrue (by rw [h]) else isFalse (fun hc => h (Except.error.inj hc))
  | Except.ok _, Except.error _ => isFalse fun hc => Except.noConfusion hc
  | Except.error _, Except.ok _ => isFalse fun hc => Except.noConfusion hc

/-- `MinimalFHIRTransformer._parse_timestamp`: `None` for a missing or empty
string, the `Z`-rewritten parse for `…Z` timestamps with a `T`, the plain
parse for other strings with a `T`, and the date-only parse with
`"T00:00:00+00:00"` appended otherwise; a `ValueError` is caught and turned
into `None`. -/
def parse_timestamp (timestamp_str : Option String) : Option PyDateTime :=
  match timestamp_str with
  | none => none
  | some s =>
    if s = "" then none
    else if s.data.contains 'T' then
      if s.data.getLast? = some 'Z' then pyFromIsoFormat (pyReplaceZ s)
      else pyFromIsoFormat s
    else pyFromIsoFormat (s ++ "T00:00:00+00:00")

/-- `find_or_create_case`, line 86:
`datetime.fromisoformat(command.timestamp.replace('Z', '+00:00'))` — the
`ValueError` of an unparseable timestamp escapes uncaught. -/
def parseIncomingDate (timestamp : String) : Except PyErr PyDateTime :=
  match pyFromIsoFormat (pyReplaceZ timestamp) with
  | some d => Except.ok d
  | none => Except.error PyErr.valueError

/-- Claim C8 (amended): the code has no `ValidationError`.  For a missing,
empty or unparseable date string the FHIR transformer's `_parse_timestamp`
returns `None` — a regular value, so the transformer still produces its
report, with the timestamp left unset — and the case handler's date parse
raises a plain `ValueError` instead. -/
theorem normalizer_returns_none_not_validation_error (ts : String)
    (h1 : pyFromIsoFormat ts = none)
    (h2 : pyFromIsoFormat (pyReplaceZ ts) = none)
    (h3 : pyFromIsoFormat (ts ++ "T00:00:00+00:00") = none) :
    parse_timestamp (some ts) = none ∧
    parse_timestamp none = none ∧
    parseIncomingDate ts = Except.error PyErr.valueError := by
  refine ⟨?_, rfl, ?_⟩
  · rw [parse_timestamp]
    by_cases he : ts = ""
    · simp [he]
    · rw [if_neg he]
      by_cases hT : ts.data.contains 'T' = true
      · rw [if_pos hT]
        by_cases hZ : ts.data.getLast? = some 'Z'
        · rw [if_pos hZ]
          exact h2
        · rw [if_neg hZ]
          exact h1
      · rw [if_neg hT]
        exact h3
  · rw [parseIncomingDate, h2]

/-- Witness for C8's amended theorem at the unparseable string `"not-a-date"`. -/
theorem normalizer_returns_none_witness :
    parse_timestamp (some "not-a-date") = none ∧
    parse_timestamp none = none ∧
    parseIncomingDate "not-a-date" = Except.error PyErr.valueError :=
  normalizer_returns_none_not_validation_error "not-a-date"
    (by decide) (by decide) (by decide)

/-- Counterexample to C8 as stated: an event whose date string cannot be
parsed does not fail with `ValidationError` — `_parse_timestamp` returns
`None` (and returns `None` for a missing or empty string too), while the case
handler raises a plain `ValueError`; well-formed date strings do parse. -/
theorem unparseable_date_no_validation_error :
    parse_timestamp (some "not-a-date") = none ∧
    parse_timestamp (some "") = none ∧
    parseIncomingDate "not-a-date" = Except.error PyErr.valueError ∧
    parse_timestamp (some "2025-10-01") =
      some ⟨2025, 10, 1, 0, 0, 0, 0, some 0⟩ ∧
    pyFromIsoFormat "2025-10-01T12:30:00+01:00" =
      some ⟨2025, 10, 1, 12, 30, 0, 0, some 60⟩ := by
  decide

end Nasure
